import Mathlib

/-!
Shallow embedding of `Assignment 2/visualization_utils.py`, the single source
file of this repository: plotting helpers that turn reinforcement-learning
experiment results into figures and a LaTeX summary table.

Modelling choices:
* Python floats are modelled as exact rationals (`ℚ`); `np.std` takes a real
  square root, so plot models record the population variance and a separate
  `npStd` definition is the real square root of that variance.
* File-system side effects (`os.makedirs(..., exist_ok=True)`, `plt.savefig`,
  `open(path, 'w')`) are recorded as an explicit effect trace or, for the
  table generator, as the full text written.
* Python dictionaries are insertion-ordered association lists.
* Uncaught Python exceptions (`ZeroDivisionError` from float division by zero,
  JSON decode errors) are modelled with `Except`.
-/

/-- Python exceptions that the modelled code can raise; nothing in the source
catches or translates them. -/
inductive PyError where
  | zeroDivisionError
  | jsonDecodeError
  deriving DecidableEq

/-- Model of `np.convolve(a, v, mode='valid')` for `len(v) ≤ len(a)`: output position
`i` is `∑ j, a[i+j] * v[len(v)-1-j]` (the kernel is reversed, as in a true
convolution), and there are `len(a) - len(v) + 1` full-overlap positions. -/
def convolveValid (a v : List ℚ) : List ℚ :=
  (List.range (a.length + 1 - v.length)).map fun i =>
    ∑ j ∈ Finset.range v.length, a.getD (i + j) 0 * v.getD (v.length - 1 - j) 0

/-- The smoothing kernel `np.ones(window)/window`: `window` copies of
`1/window`. -/
def uniformKernel (window : ℕ) : List ℚ :=
  List.replicate window (1 / (window : ℚ))

/-- The moving-average smoothing `np.convolve(xs, np.ones(50)/50, mode='valid')`
used with `window = 50` by `plot_training_comparison` (lines 30-32) and
`plot_loss_curves` (line 167). -/
def smooth (l : List ℚ) : List ℚ :=
  convolveValid l (uniformKernel 50)

/-- File-system side effects performed by the plotting functions, in order:
`os.makedirs(dir, exist_ok=True)` and `plt.savefig(path)`. -/
inductive FsEffect where
  | mkdirs (dir : String)
  | writeFile (path : String)
  deriving DecidableEq

/-- Whether an effect writes a file (as opposed to creating a directory). -/
def FsEffect.isWrite : FsEffect → Bool
  | .writeFile _ => true
  | .mkdirs _ => false

/-- Model of `np.mean` over exact rationals: sum divided by length (the empty list
gives `0/0 = 0` in `ℚ`; numpy would warn and produce NaN there). -/
def npMean (l : List ℚ) : ℚ :=
  l.sum / l.length

/-- The square of `np.std` with the default `ddof = 0` (population standard
deviation): the mean of the squared deviations from the mean. -/
def npVar (l : List ℚ) : ℚ :=
  npMean (l.map fun x => (x - npMean l) ^ 2)

/-- Model of `np.std`: the real square root of the population variance `npVar`. -/
noncomputable def npStd (l : List ℚ) : ℝ :=
  Real.sqrt (npVar l)

/-- Model of `load_results`: returns `None` (here `Except.ok none`) when the file does
not exist, otherwise parses its contents with `json.load`, propagating any
parse error.  The file system is a partial map from path to contents and the
JSON parser is abstract in the parsed type `α`. -/
def load_results {α : Type} (parse : String → Except PyError α)
    (fs : String → Option String) (results_file : String) :
    Except PyError (Option α) :=
  match fs results_file with
  | some contents => (parse contents).map some
  | none => Except.ok none

/-- Model of `plot_training_comparison`: creates `save_dir`, smooths both reward curves
with window 50, and saves `{save_dir}/{env_name}_training_comparison.png`.
Returns the effect trace and the two smoothed curves placed on the figure. -/
def plot_training_comparison (dqn_rewards ddqn_rewards : List ℚ)
    (env_name save_dir : String) : List FsEffect × (List ℚ × List ℚ) :=
  ([FsEffect.mkdirs save_dir,
    FsEffect.writeFile (save_dir ++ "/" ++ env_name ++ "_training_comparison.png")],
   (smooth dqn_rewards, smooth ddqn_rewards))

/-- Model of `plot_evaluation_stability`: creates `save_dir`, draws the rewards, their
mean line and a one-standard-deviation band plus a histogram, and saves
`{save_dir}/{env_name}_{algo_name}_stability.png`.  Returns the effect trace
together with the mean and the population variance (square of the `np.std`
band half-width) of the rewards. -/
def plot_evaluation_stability (eval_rewards : List ℚ)
    (env_name algo_name save_dir : String) : List FsEffect × (ℚ × ℚ) :=
  ([FsEffect.mkdirs save_dir,
    FsEffect.writeFile (save_dir ++ "/" ++ env_name ++ "_" ++ algo_name ++ "_stability.png")],
   (npMean eval_rewards, npVar eval_rewards))

/-- Model of `plot_hyperparameter_comparison`: iterates over
`sorted(results_dict.items())` (ascending by parameter value; a dict's keys
are distinct, so the key alone decides the order), collecting one bar per
parameter value with height `np.mean(rewards)` and error `np.std(rewards)`;
each bar is recorded as `(value, mean, variance)` with the error bar equal to
the square root of the recorded variance.  Saves
`{save_dir}/{env_name}_{param_name}_comparison.png`. -/
def plot_hyperparameter_comparison (results_dict : List (ℚ × List ℚ))
    (param_name env_name save_dir : String) :
    List FsEffect × List (ℚ × ℚ × ℚ) :=
  ([FsEffect.mkdirs save_dir,
    FsEffect.writeFile (save_dir ++ "/" ++ env_name ++ "_" ++ param_name ++ "_comparison.png")],
   (results_dict.mergeSort fun a b => decide (a.1 ≤ b.1)).map fun p =>
     (p.1, npMean p.2, npVar p.2))

/-- What `plot_loss_curves` draws: the raw curve, and optionally a smoothed
curve as a pair of its x-positions `range(window-1, len(losses))` and its
values. -/
structure LossPlot where
  raw : List ℚ
  smoothed : Option (List ℕ × List ℚ)
  deriving DecidableEq

/-- Model of `plot_loss_curves`: creates `save_dir` and saves
`{save_dir}/{env_name}_{algo_name}_loss.png`.  Smoothing is applied only when
`len(losses) > window` (strict, with `window = 50`): then both the raw curve
and the smoothed curve (plotted against `range(window-1, len(losses))`) are
drawn; otherwise only the raw curve is drawn. -/
def plot_loss_curves (losses : List ℚ) (env_name algo_name save_dir : String) :
    List FsEffect × LossPlot :=
  ([FsEffect.mkdirs save_dir,
    FsEffect.writeFile (save_dir ++ "/" ++ env_name ++ "_" ++ algo_name ++ "_loss.png")],
   if 50 < losses.length then
     { raw := losses,
       smoothed := some (List.range' 49 (losses.length - 49),
         convolveValid losses (uniformKernel 50)) }
   else { raw := losses, smoothed := none })

/-- Evaluation statistics `{mean, std}` of one algorithm on one environment,
as stored in the results mapping. -/
structure Stats where
  mean : ℚ
  std : ℚ
  deriving DecidableEq

/-- One environment's entry in the results mapping: `data['DQN']` and
`data['DDQN']`. -/
structure EnvResult where
  DQN : Stats
  DDQN : Stats
  deriving DecidableEq

/-- Python float division: raises `ZeroDivisionError` on a zero divisor
(unlike `ℚ`, where `x / 0 = 0`). -/
def pydiv (a b : ℚ) : Except PyError ℚ :=
  if b = 0 then Except.error PyError.zeroDivisionError else Except.ok (a / b)

/-- The improvement percentage
`((ddqn_mean - dqn_mean) / abs(dqn_mean)) * 100`, the value computed by
`create_summary_table` when `dqn_mean ≠ 0`. -/
def improvement (e : EnvResult) : ℚ :=
  (e.DDQN.mean - e.DQN.mean) / |e.DQN.mean| * 100

/-- Round a rational to the nearest integer, ties to the even neighbour, as
Python's fixed-point float formatting does on exactly representable values. -/
def roundHalfEven (q : ℚ) : ℤ :=
  if q - ⌊q⌋ < 1 / 2 then ⌊q⌋
  else if 1 / 2 < q - ⌊q⌋ then ⌊q⌋ + 1
  else if ⌊q⌋ % 2 = 0 then ⌊q⌋ else ⌊q⌋ + 1

/-- Render `m` tenths as a decimal numeral with one fractional digit. -/
def digitsTenths (m : ℕ) : String :=
  toString (m / 10) ++ "." ++ toString (m % 10)

/-- Python's `f"{q:.1f}"`: one decimal place, `-` sign only when negative. -/
def fmtFixed1 (q : ℚ) : String :=
  let n := roundHalfEven (q * 10)
  if n < 0 then "-" ++ digitsTenths n.natAbs else digitsTenths n.toNat

/-- Python's `f"{q:+.1f}"`: one decimal place with an explicit sign. -/
def fmtSigned1 (q : ℚ) : String :=
  let n := roundHalfEven (q * 10)
  if n < 0 then "-" ++ digitsTenths n.natAbs else "+" ++ digitsTenths n.toNat

/-- One data row of the summary table for an environment with a non-zero DQN
mean, exactly as the f-string on lines 204-206 interpolates it. -/
def mkRow (env_name : String) (e : EnvResult) : String :=
  env_name ++ " & $" ++ fmtFixed1 e.DQN.mean ++ " \\pm " ++ fmtFixed1 e.DQN.std ++
    "$ & $" ++ fmtFixed1 e.DDQN.mean ++ " \\pm " ++ fmtFixed1 e.DDQN.std ++ "$ & " ++
    fmtSigned1 (improvement e) ++ "\\% \\\\\n"

/-- One data row as actually computed: the division by `abs(dqn_mean)` raises
`ZeroDivisionError` when the DQN mean is zero. -/
def rowOf (env_name : String) (e : EnvResult) : Except PyError String :=
  match pydiv (e.DDQN.mean - e.DQN.mean) (abs e.DQN.mean) with
  | Except.error err => Except.error err
  | Except.ok impr =>
    Except.ok (env_name ++ " & $" ++ fmtFixed1 e.DQN.mean ++ " \\pm " ++ fmtFixed1 e.DQN.std ++
      "$ & $" ++ fmtFixed1 e.DDQN.mean ++ " \\pm " ++ fmtFixed1 e.DDQN.std ++ "$ & " ++
      fmtSigned1 (impr * 100) ++ "\\% \\\\\n")

/-- The fixed lines written before the data rows (lines 189-194). -/
def tableHeader : String :=
  "\\begin{table}[h]\n\\centering\n\\begin{tabular}{|l|c|c|c|}\n\\hline\n" ++
  "\\textbf{Environment} & \\textbf{DQN} & \\textbf{DDQN} & \\textbf{Improvement} \\\\\n\\hline\n"

/-- The fixed lines written after the data rows (lines 208-212). -/
def tableFooter : String :=
  "\\hline\n\\end{tabular}\n" ++
  "\\caption\x7bPerformance Comparison: DQN vs DDQN (Mean $\\pm$ Std over 100 episodes)\x7d\n" ++
  "\\label{tab:results}\n\\end{table}\n"

/-- The data rows for `results.items()` in order, stopping at the first
environment whose DQN mean is zero (where Python raises). -/
def rowsOf : List (String × EnvResult) → Except PyError (List String)
  | [] => Except.ok []
  | p :: rest =>
    match rowOf p.1 p.2 with
    | Except.error err => Except.error err
    | Except.ok r =>
      match rowsOf rest with
      | Except.error err => Except.error err
      | Except.ok rs => Except.ok (r :: rs)

/-- Model of `create_summary_table`: on success, the pair of the full text written to
`save_path` and the `print` confirmation line.  On a zero DQN mean the
uncaught `ZeroDivisionError` is returned instead (Python would leave a
partially written file behind; only the successful text is modelled). -/
def create_summary_table (results : List (String × EnvResult)) (save_path : String) :
    Except PyError (String × String) :=
  match rowsOf results with
  | Except.error err => Except.error err
  | Except.ok rows =>
    Except.ok (tableHeader ++ String.join rows ++ tableFooter,
      "LaTeX table saved to " ++ save_path)
theorem length_convolveValid (a v : List ℚ) :
    (convolveValid a v).length = a.length + 1 - v.length := by
  simp [convolveValid]

theorem getD_convolveValid (a v : List ℚ) (i : ℕ) (hi : i < a.length + 1 - v.length) :
    (convolveValid a v).getD i 0 =
      ∑ j ∈ Finset.range v.length, a.getD (i + j) 0 * v.getD (v.length - 1 - j) 0 := by
  unfold convolveValid
  rw [List.getD_eq_getElem?_getD, List.getElem?_map, List.getElem?_range hi]
  rfl

theorem length_uniformKernel (w : ℕ) : (uniformKernel w).length = w := by
  simp [uniformKernel]

theorem getD_uniformKernel (w k : ℕ) (hk : k < w) :
    (uniformKernel w).getD k 0 = 1 / (w : ℚ) := by
  unfold uniformKernel
  rw [List.getD_eq_getElem?_getD, List.getElem?_replicate]
  simp [hk]

theorem sum_take_drop (a : List ℚ) :
    ∀ (w i : ℕ), i + w ≤ a.length →
      ((a.drop i).take w).sum = ∑ j ∈ Finset.range w, a.getD (i + j) 0
  | 0, i, _ => by simp
  | w + 1, i, h => by
    have hi : i < a.length := by omega
    rw [List.drop_eq_getElem_cons hi]
    simp only [List.take_succ_cons, List.sum_cons]
    rw [sum_take_drop a w (i + 1) (by omega), Finset.sum_range_succ']
    have hget : a.getD (i + 0) 0 = a[i] := by
      rw [List.getD_eq_getElem?_getD, Nat.add_zero, List.getElem?_eq_getElem hi]
      rfl
    rw [hget]
    have hcong : ∀ j ∈ Finset.range w, a.getD (i + 1 + j) 0 = a.getD (i + (j + 1)) 0 := by
      intro j _
      ring_nf
    rw [Finset.sum_congr rfl hcong]
    ring

theorem smooth_length (l : List ℚ) : (smooth l).length = l.length + 1 - 50 := by
  unfold smooth
  rw [length_convolveValid, length_uniformKernel]

theorem smooth_getD (l : List ℚ) (i : ℕ) (h50 : 50 ≤ l.length)
    (hi : i < (smooth l).length) :
    (smooth l).getD i 0 = ((l.drop i).take 50).sum / 50 := by
  have hlen : (smooth l).length = l.length + 1 - 50 := smooth_length l
  have hi' : i < l.length + 1 - 50 := by omega
  unfold smooth
  rw [getD_convolveValid l (uniformKernel 50) i (by rw [length_uniformKernel]; exact hi')]
  have hker : ∀ j ∈ Finset.range (uniformKernel 50).length,
      l.getD (i + j) 0 * (uniformKernel 50).getD ((uniformKernel 50).length - 1 - j) 0 =
        l.getD (i + j) 0 * (1 / (50 : ℚ)) := by
    intro j hj
    have hjlt : j < 50 := by
      have := Finset.mem_range.mp hj
      rwa [length_uniformKernel] at this
    rw [length_uniformKernel, getD_uniformKernel 50 (50 - 1 - j) (by omega)]
    norm_num
  rw [Finset.sum_congr rfl hker, length_uniformKernel]
  rw [← Finset.sum_mul, ← sum_take_drop l 50 i (by omega)]
  ring
/-- C1: for any input of length at least the window (50), the moving-average
smoothing used by the plotting functions has length `len(input) − 50 + 1`, and
the value at each valid position `i` is the arithmetic mean of the 50
consecutive input samples starting at `i` (full-overlap / trailing window);
in particular length-500 inputs smooth to length 451, and
`plot_training_comparison` places exactly these smoothed curves on the figure. -/
theorem smoothing_valid_window (l : List ℚ) (h : 50 ≤ l.length) :
    (smooth l).length = l.length - 50 + 1 ∧
    (∀ i, i < (smooth l).length →
      (smooth l).getD i 0 = ((l.drop i).take 50).sum / 50) ∧
    (l.length = 500 → (smooth l).length = 451) ∧
    (∀ m env_name save_dir,
      (plot_training_comparison l m env_name save_dir).2.1 = smooth l ∧
      (plot_training_comparison m l env_name save_dir).2.2 = smooth l) := by
  refine ⟨?_, ?_, ?_, ?_⟩
  · rw [smooth_length]
    omega
  · intro i hi
    exact smooth_getD l i h hi
  · intro h500
    rw [smooth_length]
    omega
  · intro m env_name save_dir
    exact ⟨rfl, rfl⟩

/-- Witness for C1 at the concrete input `replicate 50 0`. -/
theorem smoothing_valid_window_witness :
    50 ≤ (List.replicate 50 (0 : ℚ)).length ∧
    ((smooth (List.replicate 50 (0 : ℚ))).length = (List.replicate 50 (0 : ℚ)).length - 50 + 1 ∧
    (∀ i, i < (smooth (List.replicate 50 (0 : ℚ))).length →
      (smooth (List.replicate 50 (0 : ℚ))).getD i 0 =
        (((List.replicate 50 (0 : ℚ)).drop i).take 50).sum / 50) ∧
    ((List.replicate 50 (0 : ℚ)).length = 500 →
      (smooth (List.replicate 50 (0 : ℚ))).length = 451) ∧
    (∀ m env_name save_dir,
      (plot_training_comparison (List.replicate 50 (0 : ℚ)) m env_name save_dir).2.1 =
        smooth (List.replicate 50 (0 : ℚ)) ∧
      (plot_training_comparison m (List.replicate 50 (0 : ℚ)) env_name save_dir).2.2 =
        smooth (List.replicate 50 (0 : ℚ)))) :=
  ⟨by simp, smoothing_valid_window (List.replicate 50 (0 : ℚ)) (by simp)⟩

/-- C4 counterexample: at input length exactly 50 (so `len(losses) ≥ 50`),
`plot_loss_curves` draws no smoothed curve, because the code guards smoothing
with the strict comparison `len(losses) > window`. -/
theorem plot_loss_curves_at_window_unsmoothed :
    50 ≤ (List.replicate 50 (1 : ℚ)).length ∧
    ((plot_loss_curves (List.replicate 50 (1 : ℚ)) "CartPole-v1" "DQN" "plots").2).smoothed =
      none := by
  constructor
  · simp
  · rfl

/-- C4 (amended): `plot_loss_curves` plots only the unsmoothed sequence when
`len(losses) ≤ 50`, and applies the window-50 moving-average smoothing — raw
curve plus a smoothed curve aligned from index `window − 1 = 49` whose values
are the true trailing-window means — exactly when `len(losses) > 50`. -/
theorem plot_loss_curves_smoothing (losses : List ℚ) (env_name algo_name save_dir : String) :
    (losses.length ≤ 50 →
      (plot_loss_curves losses env_name algo_name save_dir).2 =
        { raw := losses, smoothed := none }) ∧
    (50 < losses.length →
      (plot_loss_curves losses env_name algo_name save_dir).2 =
        { raw := losses,
          smoothed := some (List.range' 49 (losses.length - 49), smooth losses) } ∧
      (smooth losses).length = losses.length - 49 ∧
      (List.range' 49 (losses.length - 49)).length = (smooth losses).length ∧
      ∀ i, i < (smooth losses).length →
        (smooth losses).getD i 0 = ((losses.drop i).take 50).sum / 50) := by
  constructor
  · intro hle
    unfold plot_loss_curves
    rw [if_neg (by omega)]
  · intro hlt
    refine ⟨?_, ?_, ?_, ?_⟩
    · unfold plot_loss_curves
      rw [if_pos hlt]
      rfl

    · rw [smooth_length]
      omega
    · rw [List.length_range', smooth_length]
      omega
    · intro i hi
      exact smooth_getD losses i (by omega) hi

/-- Witness for the amended C4 at lengths 3 (raw only) and 51 (smoothed). -/
theorem plot_loss_curves_smoothing_witness :
    ((plot_loss_curves (List.replicate 3 (0 : ℚ)) "E" "A" "p").2 =
      { raw := List.replicate 3 (0 : ℚ), smoothed := none }) ∧
    ((plot_loss_curves (List.replicate 51 (0 : ℚ)) "E" "A" "p").2 =
      { raw := List.replicate 51 (0 : ℚ),
        smoothed := some (List.range' 49 ((List.replicate 51 (0 : ℚ)).length - 49),
          smooth (List.replicate 51 (0 : ℚ))) } ∧
    (smooth (List.replicate 51 (0 : ℚ))).length = (List.replicate 51 (0 : ℚ)).length - 49 ∧
    (List.range' 49 ((List.replicate 51 (0 : ℚ)).length - 49)).length =
      (smooth (List.replicate 51 (0 : ℚ))).length ∧
    ∀ i, i < (smooth (List.replicate 51 (0 : ℚ))).length →
      (smooth (List.replicate 51 (0 : ℚ))).getD i 0 =
        (((List.replicate 51 (0 : ℚ)).drop i).take 50).sum / 50) :=
  ⟨(plot_loss_curves_smoothing (List.replicate 3 (0 : ℚ)) "E" "A" "p").1 (by decide),
   (plot_loss_curves_smoothing (List.replicate 51 (0 : ℚ)) "E" "A" "p").2 (by decide)⟩
theorem rowOf_ok (env_name : String) (e : EnvResult) (h : e.DQN.mean ≠ 0) :
    rowOf env_name e = Except.ok (mkRow env_name e) := by
  have habs : |e.DQN.mean| ≠ 0 := by simpa [abs_eq_zero] using h
  simp [rowOf, pydiv, habs, mkRow, improvement]

theorem rowsOf_ok (results : List (String × EnvResult))
    (h : ∀ p ∈ results, p.2.DQN.mean ≠ 0) :
    rowsOf results = Except.ok (results.map fun p => mkRow p.1 p.2) := by
  induction results with
  | nil => rfl
  | cons p rest ih =>
    have hp : p.2.DQN.mean ≠ 0 := h p (List.mem_cons_self p rest)
    have hrest := ih fun q hq => h q (List.mem_cons_of_mem p hq)
    simp [rowsOf, rowOf_ok p.1 p.2 hp, hrest]

theorem rowsOf_error (results : List (String × EnvResult))
    (h : ∃ p ∈ results, p.2.DQN.mean = 0) :
    rowsOf results = Except.error PyError.zeroDivisionError := by
  induction results with
  | nil => simp at h
  | cons p rest ih =>
    by_cases hp : p.2.DQN.mean = 0
    · have habs : |p.2.DQN.mean| = 0 := abs_eq_zero.mpr hp
      simp [rowsOf, rowOf, pydiv, habs]
    · rcases h with ⟨q, hq, hq0⟩
      rcases List.mem_cons.mp hq with rfl | hmem
      · exact absurd hq0 hp
      · have habs : |p.2.DQN.mean| ≠ 0 := by simpa [abs_eq_zero] using hp
        simp [rowsOf, rowOf, pydiv, habs, ih ⟨q, hmem, hq0⟩]

theorem roundHalfEven_intCast (n : ℤ) : roundHalfEven ((n : ℚ)) = n := by
  unfold roundHalfEven
  rw [Int.floor_intCast, sub_self]
  norm_num

theorem fmtFixed1_intCast (n : ℤ) (h : 0 ≤ n) :
    fmtFixed1 ((n : ℚ)) = digitsTenths (10 * n).toNat := by
  unfold fmtFixed1
  rw [show ((n : ℚ)) * 10 = ((10 * n : ℤ) : ℚ) by push_cast; ring, roundHalfEven_intCast]
  rw [if_neg (by omega)]

theorem fmtSigned1_intCast (n : ℤ) (h : 0 ≤ n) :
    fmtSigned1 ((n : ℚ)) = "+" ++ digitsTenths (10 * n).toNat := by
  unfold fmtSigned1
  rw [show ((n : ℚ)) * 10 = ((10 * n : ℤ) : ℚ) by push_cast; ring, roundHalfEven_intCast]
  rw [if_neg (by omega)]

/-- C2: with non-zero DQN means throughout, `create_summary_table` succeeds;
each environment's row interpolates the improvement percentage
`(ddqn_mean − dqn_mean) / |dqn_mean| * 100`, rendered with an explicit sign
and one decimal place by `fmtSigned1`. -/
theorem create_summary_table_improvement (results : List (String × EnvResult))
    (save_path : String) (h : ∀ p ∈ results, p.2.DQN.mean ≠ 0) :
    create_summary_table results save_path =
      Except.ok
        (tableHeader ++ String.join (results.map fun p => mkRow p.1 p.2) ++ tableFooter,
         "LaTeX table saved to " ++ save_path) ∧
    ∀ p ∈ results, mkRow p.1 p.2 =
      p.1 ++ " & $" ++ fmtFixed1 p.2.DQN.mean ++ " \\pm " ++ fmtFixed1 p.2.DQN.std ++
        "$ & $" ++ fmtFixed1 p.2.DDQN.mean ++ " \\pm " ++ fmtFixed1 p.2.DDQN.std ++ "$ & " ++
        fmtSigned1 ((p.2.DDQN.mean - p.2.DQN.mean) / |p.2.DQN.mean| * 100) ++ "\\% \\\\\n" := by
  constructor
  · simp [create_summary_table, rowsOf_ok results h]
  · intro p _
    rfl

/-- Witness for C2: the spec's worked example, DQN mean 100.0 (std 5.0) and
DDQN mean 120.0 (std 4.0), produces the row showing `+20.0\%`. -/
theorem create_summary_table_improvement_witness :
    (∀ p ∈ ([("CartPole-v1", EnvResult.mk (Stats.mk 100 5) (Stats.mk 120 4))] :
        List (String × EnvResult)), p.2.DQN.mean ≠ 0) ∧
    create_summary_table [("CartPole-v1", EnvResult.mk (Stats.mk 100 5) (Stats.mk 120 4))]
        "summary_table.txt" =
      Except.ok
        (tableHeader ++ "CartPole-v1 & $100.0 \\pm 5.0$ & $120.0 \\pm 4.0$ & +20.0\\% \\\\\n" ++
           tableFooter,
         "LaTeX table saved to summary_table.txt") := by
  constructor
  · decide
  · have h := create_summary_table_improvement
      [("CartPole-v1", EnvResult.mk (Stats.mk 100 5) (Stats.mk 120 4))]
      "summary_table.txt" (by decide)
    rw [h.1]
    have h100 : fmtFixed1 ((100 : ℚ)) = "100.0" := by
      rw [show (100 : ℚ) = ((100 : ℤ) : ℚ) by norm_num, fmtFixed1_intCast 100 (by omega)]
      rfl
    have h5 : fmtFixed1 ((5 : ℚ)) = "5.0" := by
      rw [show (5 : ℚ) = ((5 : ℤ) : ℚ) by norm_num, fmtFixed1_intCast 5 (by omega)]
      rfl
    have h120 : fmtFixed1 ((120 : ℚ)) = "120.0" := by
      rw [show (120 : ℚ) = ((120 : ℤ) : ℚ) by norm_num, fmtFixed1_intCast 120 (by omega)]
      rfl
    have h4 : fmtFixed1 ((4 : ℚ)) = "4.0" := by
      rw [show (4 : ℚ) = ((4 : ℤ) : ℚ) by norm_num, fmtFixed1_intCast 4 (by omega)]
      rfl
    have himp : improvement (EnvResult.mk (Stats.mk 100 5) (Stats.mk 120 4)) = 20 := by
      unfold improvement
      norm_num
    have hsig : fmtSigned1 (improvement (EnvResult.mk (Stats.mk 100 5) (Stats.mk 120 4))) =
        "+20.0" := by
      rw [himp, show (20 : ℚ) = ((20 : ℤ) : ℚ) by norm_num, fmtSigned1_intCast 20 (by omega)]
      rfl
    simp only [List.map]
    simp only [mkRow]
    rw [h100, h5, h120, h4, hsig]
    rfl

/-- C3: any results mapping containing an environment with a zero DQN mean
makes `create_summary_table` fail with the (uncaught, untranslated)
`ZeroDivisionError` from the float division in the improvement computation. -/
theorem create_summary_table_zero_mean (results : List (String × EnvResult))
    (save_path : String) (h : ∃ p ∈ results, p.2.DQN.mean = 0) :
    create_summary_table results save_path = Except.error PyError.zeroDivisionError := by
  simp [create_summary_table, rowsOf_error results h]

/-- Witness for C3 at a one-environment mapping whose DQN mean is zero. -/
theorem create_summary_table_zero_mean_witness :
    (∃ p ∈ ([("MountainCar-v0", EnvResult.mk (Stats.mk 0 1) (Stats.mk 7 2))] :
        List (String × EnvResult)), p.2.DQN.mean = 0) ∧
    create_summary_table [("MountainCar-v0", EnvResult.mk (Stats.mk 0 1) (Stats.mk 7 2))]
        "summary_table.txt" = Except.error PyError.zeroDivisionError :=
  ⟨by decide,
   create_summary_table_zero_mean
     [("MountainCar-v0", EnvResult.mk (Stats.mk 0 1) (Stats.mk 7 2))]
     "summary_table.txt" (by decide)⟩
/-- C5: `load_results` returns the parsed mapping when the file exists and
holds valid JSON, returns `None` (not an error) when the file is missing, and
— its only defensive check being existence — lets a parse failure on an
existing file propagate untranslated. -/
theorem load_results_spec {α : Type} (parse : String → Except PyError α)
    (fs : String → Option String) (results_file : String) :
    (fs results_file = none → load_results parse fs results_file = Except.ok none) ∧
    (∀ c j, fs results_file = some c → parse c = Except.ok j →
      load_results parse fs results_file = Except.ok (some j)) ∧
    (∀ c err, fs results_file = some c → parse c = Except.error err →
      load_results parse fs results_file = Except.error err) := by
  refine ⟨?_, ?_, ?_⟩
  · intro hnone
    simp [load_results, hnone]
  · intro c j hsome hparse
    simp [load_results, hsome, hparse, Except.map]
  · intro c err hsome hparse
    simp [load_results, hsome, hparse, Except.map]

/-- Witness for C5: a concrete file system with one file, a parser returning
the content length, and a missing path. -/
theorem load_results_spec_witness :
    ((fun p => if p = "results.json" then some "ab" else none) "results.json" = some "ab" ∧
      (fun s : String => Except.ok (α := ℕ) (ε := PyError) s.length) "ab" = Except.ok 2 ∧
      load_results (fun s => Except.ok s.length)
        (fun p => if p = "results.json" then some "ab" else none) "results.json" =
        Except.ok (some 2)) ∧
    ((fun _ : String => (none : Option String)) "missing.json" = none ∧
      load_results (fun s => Except.ok (α := ℕ) (ε := PyError) s.length)
        (fun _ => none) "missing.json" = Except.ok none) :=
  ⟨⟨by decide, rfl,
    (load_results_spec (fun s => Except.ok s.length)
      (fun p => if p = "results.json" then some "ab" else none) "results.json").2.1
      "ab" 2 (by decide) rfl⟩,
   ⟨rfl,
    (load_results_spec (fun s => Except.ok (α := ℕ) (ε := PyError) s.length)
      (fun _ => none) "missing.json").1 rfl⟩⟩

/-- C6: `plot_training_comparison` and `plot_evaluation_stability` each create
the target directory first and then write exactly one image file, at the fixed
interpolated paths `{save_dir}/{env}_training_comparison.png` and
`{save_dir}/{env}_{algo}_stability.png`. -/
theorem plots_write_one_file (dqn_rewards ddqn_rewards eval_rewards : List ℚ)
    (env_name algo_name save_dir : String) :
    (plot_training_comparison dqn_rewards ddqn_rewards env_name save_dir).1.filter
        FsEffect.isWrite =
      [FsEffect.writeFile (save_dir ++ "/" ++ env_name ++ "_training_comparison.png")] ∧
    (plot_training_comparison dqn_rewards ddqn_rewards env_name save_dir).1.head? =
      some (FsEffect.mkdirs save_dir) ∧
    (plot_evaluation_stability eval_rewards env_name algo_name save_dir).1.filter
        FsEffect.isWrite =
      [FsEffect.writeFile (save_dir ++ "/" ++ env_name ++ "_" ++ algo_name ++ "_stability.png")] ∧
    (plot_evaluation_stability eval_rewards env_name algo_name save_dir).1.head? =
      some (FsEffect.mkdirs save_dir) :=
  ⟨rfl, rfl, rfl, rfl⟩

/-- C7: with non-zero DQN means, `create_summary_table` writes exactly one
text file: the fixed header, one `mkRow` data row per environment (in mapping
order, listing DQN mean±std, DDQN mean±std and the improvement percentage),
and the fixed footer — and the confirmation line names the save path. -/
theorem create_summary_table_file (results : List (String × EnvResult))
    (save_path : String) (h : ∀ p ∈ results, p.2.DQN.mean ≠ 0) :
    (results.map fun p => mkRow p.1 p.2).length = results.length ∧
    create_summary_table results save_path =
      Except.ok
        (tableHeader ++ String.join (results.map fun p => mkRow p.1 p.2) ++ tableFooter,
         "LaTeX table saved to " ++ save_path) := by
  constructor
  · simp
  · simp [create_summary_table, rowsOf_ok results h]

/-- Witness for C7 at a two-environment mapping. -/
theorem create_summary_table_file_witness :
    (∀ p ∈ ([("CartPole-v1", EnvResult.mk (Stats.mk 485 12) (Stats.mk 495 8)),
             ("Acrobot-v1", EnvResult.mk (Stats.mk 200 9) (Stats.mk 210 7))] :
        List (String × EnvResult)), p.2.DQN.mean ≠ 0) ∧
    (([("CartPole-v1", EnvResult.mk (Stats.mk 485 12) (Stats.mk 495 8)),
       ("Acrobot-v1", EnvResult.mk (Stats.mk 200 9) (Stats.mk 210 7))] :
        List (String × EnvResult)).map fun p => mkRow p.1 p.2).length =
      ([("CartPole-v1", EnvResult.mk (Stats.mk 485 12) (Stats.mk 495 8)),
        ("Acrobot-v1", EnvResult.mk (Stats.mk 200 9) (Stats.mk 210 7))] :
        List (String × EnvResult)).length ∧
    create_summary_table
        [("CartPole-v1", EnvResult.mk (Stats.mk 485 12) (Stats.mk 495 8)),
         ("Acrobot-v1", EnvResult.mk (Stats.mk 200 9) (Stats.mk 210 7))] "tbl.txt" =
      Except.ok
        (tableHeader ++
           String.join
             (([("CartPole-v1", EnvResult.mk (Stats.mk 485 12) (Stats.mk 495 8)),
                ("Acrobot-v1", EnvResult.mk (Stats.mk 200 9) (Stats.mk 210 7))] :
               List (String × EnvResult)).map fun p => mkRow p.1 p.2) ++ tableFooter,
         "LaTeX table saved to " ++ "tbl.txt") :=
  ⟨by decide,
   create_summary_table_file
     [("CartPole-v1", EnvResult.mk (Stats.mk 485 12) (Stats.mk 495 8)),
      ("Acrobot-v1", EnvResult.mk (Stats.mk 200 9) (Stats.mk 210 7))] "tbl.txt" (by decide)⟩

/-- C9: on the empty results mapping, `create_summary_table` succeeds, writing
the complete fixed header-plus-footer markup with zero data rows, and still
produces the confirmation line. -/
theorem create_summary_table_empty (save_path : String) :
    create_summary_table ([] : List (String × EnvResult)) save_path =
      Except.ok (tableHeader ++ tableFooter, "LaTeX table saved to " ++ save_path) := by
  have hjoin : tableHeader ++ String.join [] ++ tableFooter = tableHeader ++ tableFooter := by
    rfl
  simp only [create_summary_table, rowsOf]
  rw [hjoin]

/-- C10: `create_summary_table` is deterministic — equal results mappings and
equal save paths give identical output text and confirmation line (inputs are
immutable values in this model, matching the source, which only reads
`results.items()`). -/
theorem create_summary_table_deterministic (results₁ results₂ : List (String × EnvResult))
    (path₁ path₂ : String) (h : results₁ = results₂) (h' : path₁ = path₂) :
    create_summary_table results₁ path₁ = create_summary_table results₂ path₂ := by
  rw [h, h']

/-- Witness for C10 at a concrete mapping and path. -/
theorem create_summary_table_deterministic_witness :
    create_summary_table [("CartPole-v1", EnvResult.mk (Stats.mk 1 2) (Stats.mk 3 4))] "a.txt" =
      create_summary_table [("CartPole-v1", EnvResult.mk (Stats.mk 1 2) (Stats.mk 3 4))] "a.txt" :=
  create_summary_table_deterministic
    [("CartPole-v1", EnvResult.mk (Stats.mk 1 2) (Stats.mk 3 4))]
    [("CartPole-v1", EnvResult.mk (Stats.mk 1 2) (Stats.mk 3 4))] "a.txt" "a.txt" rfl rfl
theorem npVar_nonneg (l : List ℚ) : 0 ≤ npVar l := by
  unfold npVar npMean
  apply div_nonneg
  · apply List.sum_nonneg
    intro x hx
    rcases List.mem_map.mp hx with ⟨y, _, rfl⟩
    positivity
  · positivity

theorem npStd_nonneg (l : List ℚ) : 0 ≤ npStd l :=
  Real.sqrt_nonneg _

theorem npStd_sq (l : List ℚ) : npStd l ^ 2 = ((npVar l : ℚ) : ℝ) := by
  unfold npStd
  exact Real.sq_sqrt (by exact_mod_cast npVar_nonneg l)

/-- C8: `plot_hyperparameter_comparison` displays the parameter values in
ascending sorted order of the original values (a permutation of the mapping's
keys, not its insertion order); each original entry contributes a bar of
height `npMean rewards`, whose error bar `npStd rewards` is the nonnegative
real whose square is the recorded population variance. -/
theorem hyperparameter_sorted_bars (results_dict : List (ℚ × List ℚ))
    (param_name env_name save_dir : String) :
    ((plot_hyperparameter_comparison results_dict param_name env_name save_dir).2.map
      fun b => b.1).Sorted (· ≤ ·) ∧
    List.Perm
      ((plot_hyperparameter_comparison results_dict param_name env_name save_dir).2.map
        fun b => b.1)
      (results_dict.map fun p => p.1) ∧
    (plot_hyperparameter_comparison results_dict param_name env_name save_dir).2.length =
      results_dict.length ∧
    (∀ p ∈ results_dict,
      (p.1, npMean p.2, npVar p.2) ∈
        (plot_hyperparameter_comparison results_dict param_name env_name save_dir).2) ∧
    ∀ rewards : List ℚ, 0 ≤ npStd rewards ∧ npStd rewards ^ 2 = ((npVar rewards : ℚ) : ℝ) := by
  have hmap : (plot_hyperparameter_comparison results_dict param_name env_name save_dir).2.map
      (fun b => b.1) =
      (results_dict.mergeSort fun a b => decide (a.1 ≤ b.1)).map fun p => p.1 := by
    simp [plot_hyperparameter_comparison, List.map_map, Function.comp]
  have hperm : List.Perm (results_dict.mergeSort fun a b => decide (a.1 ≤ b.1)) results_dict :=
    List.mergeSort_perm results_dict _
  refine ⟨?_, ?_, ?_, ?_, ?_⟩
  · rw [hmap]
    have hpair : List.Pairwise
        (fun a b : ℚ × List ℚ => decide (a.1 ≤ b.1) = true)
        (results_dict.mergeSort fun a b => decide (a.1 ≤ b.1)) :=
      List.sorted_mergeSort
        (by
          intro a b c h₁ h₂
          simp only [decide_eq_true_eq] at h₁ h₂ ⊢
          exact le_trans h₁ h₂)
        (by
          intro a b
          simpa using le_total a.1 b.1)
        results_dict
    rw [List.Sorted, List.pairwise_map]
    exact hpair.imp fun hab => of_decide_eq_true hab
  · rw [hmap]
    exact hperm.map fun p => p.1
  · simp [plot_hyperparameter_comparison]
  · intro p hp
    have hp' : p ∈ results_dict.mergeSort fun a b => decide (a.1 ≤ b.1) :=
      hperm.mem_iff.mpr hp
    exact List.mem_map_of_mem (fun p => (p.1, npMean p.2, npVar p.2)) hp'
  · intro rewards
    exact ⟨npStd_nonneg rewards, npStd_sq rewards⟩

/-- Witness for C8 at the mapping `[(3, [1, 5]), (1, [2, 4])]`, inserted in
descending key order. -/
theorem hyperparameter_sorted_bars_witness :
    ((plot_hyperparameter_comparison [((3 : ℚ), [(1 : ℚ), 5]), (1, [2, 4])]
        "GAMMA" "CartPole-v1" "plots").2.map fun b => b.1).Sorted (· ≤ ·) ∧
    List.Perm
      ((plot_hyperparameter_comparison [((3 : ℚ), [(1 : ℚ), 5]), (1, [2, 4])]
          "GAMMA" "CartPole-v1" "plots").2.map fun b => b.1)
      (([((3 : ℚ), [(1 : ℚ), 5]), (1, [2, 4])] : List (ℚ × List ℚ)).map fun p => p.1) ∧
    ((3 : ℚ), npMean [(1 : ℚ), 5], npVar [(1 : ℚ), 5]) ∈
      (plot_hyperparameter_comparison [((3 : ℚ), [(1 : ℚ), 5]), (1, [2, 4])]
        "GAMMA" "CartPole-v1" "plots").2 ∧
    0 ≤ npStd [(1 : ℚ), 5] ∧ npStd [(1 : ℚ), 5] ^ 2 = ((npVar [(1 : ℚ), 5] : ℚ) : ℝ) :=
  ⟨(hyperparameter_sorted_bars [((3 : ℚ), [(1 : ℚ), 5]), (1, [2, 4])]
      "GAMMA" "CartPole-v1" "plots").1,
   (hyperparameter_sorted_bars [((3 : ℚ), [(1 : ℚ), 5]), (1, [2, 4])]
      "GAMMA" "CartPole-v1" "plots").2.1,
   (hyperparameter_sorted_bars [((3 : ℚ), [(1 : ℚ), 5]), (1, [2, 4])]
      "GAMMA" "CartPole-v1" "plots").2.2.2.1 ((3 : ℚ), [(1 : ℚ), 5]) (by decide),
   (hyperparameter_sorted_bars [((3 : ℚ), [(1 : ℚ), 5]), (1, [2, 4])]
      "GAMMA" "CartPole-v1" "plots").2.2.2.2 [(1 : ℚ), 5]⟩
